import Mathlib

/-!
Shallow embedding of the invocation-side open-tracing interceptor
(`python/grpc_opentracing/_client.py`) and proofs about its span
lifecycle, metadata codec, and call-path strategies.

Modelling conventions:
* call metadata is an ordered list of string key-value pairs;
* request and response payloads are abstracted as natural numbers;
* a Python exception instance is a class name plus an abstract payload
  distinguishing instances of the same class;
* the external tracer is a record of functions: `inject` serializes a
  span context into header pairs or fails with one of the three codec
  error classes the module catches, `extract` deserializes metadata into
  a context or fails likewise; `start_span` is modelled by constructing
  a `SpanData` record directly;
* `with ... as span:` blocks are modelled by finishing the span on every
  exit path (the spec's Span interface guarantees finish-on-exit);
* the deferred-result wrapper threads a counter of how many completion
  spans have been created via `tracer.start_span`.
-/

/-- Carrier metadata: an ordered sequence of key-value string pairs. -/
abbrev Metadata := List (String × String)

/-- A Python exception instance: its class name plus an abstract payload
distinguishing different instances of the same class. -/
structure PyExc where
  cls : String
  payload : Nat
deriving DecidableEq

/-- The three opentracing codec error classes caught by `_client.py`
(`UnsupportedFormatException`, `InvalidCarrierException`,
`SpanContextCorruptedException`). -/
inductive CodecError where
  | unsupportedFormat
  | invalidCarrier
  | spanContextCorrupted
deriving DecidableEq

/-- A value stored under a span tag key. -/
inductive TagVal where
  | s (v : String)
  | b (v : Bool)
  | n (v : Nat)
deriving DecidableEq

/-- The value logged under `error.object` in a structured error event.
`excClass` is an exception class (what `sys.exc_info()[0]` denotes),
`excInstance` an exception instance, `codec` a caught codec-error
instance. -/
inductive ErrVal where
  | excClass (c : String)
  | excInstance (e : PyExc)
  | codec (e : CodecError)
deriving DecidableEq

/-- A structured log event recorded on a span via `span.log_kv`. -/
inductive LogEvent where
  | request (r : Nat)
  | response (r : Nat)
  | error (v : ErrVal)
deriving DecidableEq

/-- The observable state of one span produced by the tracer. -/
structure SpanData where
  operationName : String
  context : Nat
  childOf : Option Nat
  references : List Nat
  tags : List (String × TagVal)
  logs : List LogEvent
  startTime : Nat
  finishCount : Nat
deriving DecidableEq

/-- Python-dict update semantics for the tag mapping: replace the value
when the key is present, append otherwise. -/
def tagsSet (ts : List (String × TagVal)) (k : String) (v : TagVal) :
    List (String × TagVal) :=
  if ts.any (fun p => p.1 = k) then
    ts.map (fun p => if p.1 = k then (k, v) else p)
  else ts ++ [(k, v)]

/-- Look a tag up by key. -/
def tagsGet (ts : List (String × TagVal)) (k : String) : Option TagVal :=
  (ts.find? (fun p => p.1 = k)).map (fun p => p.2)

/-- Model of `span.log_kv`: append one structured event. -/
def spanLog (s : SpanData) (e : LogEvent) : SpanData :=
  { s with logs := s.logs ++ [e] }

/-- Append several structured events. -/
def addLogs (s : SpanData) (es : List LogEvent) : SpanData :=
  { s with logs := s.logs ++ es }

/-- Model of `span.set_tag`. -/
def spanSetTag (s : SpanData) (k : String) (v : TagVal) : SpanData :=
  { s with tags := tagsSet s.tags k v }

/-- Model of `span.finish()` as performed when a `with` block exits. -/
def finishSpan (s : SpanData) : SpanData :=
  { s with finishCount := s.finishCount + 1 }

/-- Model of `sys.exc_info()[0]`: the class of the in-flight exception,
not the exception instance itself. -/
def exc_info_0 (e : PyExc) : ErrVal :=
  ErrVal.excClass e.cls

/-- Whether a log event is a response event. -/
def isRespEvent : LogEvent → Bool
  | .response _ => true
  | _ => false

/-- Whether a log event is a request event. -/
def isReqEvent : LogEvent → Bool
  | .request _ => true
  | _ => false

/-- Whether a log event is an error event. -/
def isErrEvent : LogEvent → Bool
  | .error _ => true
  | _ => false

/-- Number of response log events in a log list. -/
def countResp (logs : List LogEvent) : Nat :=
  (logs.filter isRespEvent).length

/-- Number of request log events in a log list. -/
def countReq (logs : List LogEvent) : Nat :=
  (logs.filter isReqEvent).length

/-- Number of error log events in a log list. -/
def countErr (logs : List LogEvent) : Nat :=
  (logs.filter isErrEvent).length

/-- The external tracer dependency: `inject` serializes a span context
into header pairs (the carrier dict filled by `tracer.inject`) or fails
with a codec error; `extract` deserializes metadata into a context or
fails with a codec error; `newContext` is the context the tracer assigns
to a span it starts. -/
structure Tracer where
  inject : Nat → Except CodecError Metadata
  extract : Metadata → Except CodecError Nat
  newContext : Nat

/-- The underlying gRPC rendezvous (a resolved `grpc.Future`/`grpc.Call`):
the memoized outcome of `result()`, its trailing metadata, and the values
returned by the control-plane operations that the wrapper forwards. -/
structure UnderlyingRendezvous where
  resultOutcome : Except PyExc Nat
  trailing : Option Metadata
  cancelRet : Bool
  cancelledRet : Bool
  runningRet : Bool
  doneRet : Bool
  excRet : Option PyExc
  tracebackRet : Option String
  isActiveRet : Bool
  timeRemainingRet : Nat
  initialMeta : Option Metadata
  codeRet : Nat
  detailsRet : String

/-- The deferred-result wrapper `_OpenTracingRendezvous` (lines 16-111):
holds the wrapped rendezvous, the method name, the tracer, and the
payload-logging flag. -/
structure _OpenTracingRendezvous where
  rendezvous : UnderlyingRendezvous
  method : String
  tracer : Tracer
  log_payloads : Bool

/-- Model of `_OpenTracingRendezvous._start_span` (lines 24-56).  Reads the
trailing metadata; when it is non-absent and non-empty, tries
`tracer.extract` on it: success gives a `follows_from` reference, a
codec failure leaves the span a root span and logs the caught error
instance on it after creation.  The second component threads the count
of spans created via `tracer.start_span` (one per call). -/
def _OpenTracingRendezvous._start_span (r : _OpenTracingRendezvous) (st : Nat) :
    SpanData × Nat :=
  let ext : Option Nat × Option CodecError :=
    match r.rendezvous.trailing with
    | none => (none, none)
    | some m =>
      if m.isEmpty then (none, none)
      else
        match r.tracer.extract m with
        | .ok c => (some c, none)
        | .error e => (none, some e)
  let references : List Nat :=
    match ext.1 with
    | some c => [c]
    | none => []
  let span : SpanData :=
    { operationName := r.method
      context := r.tracer.newContext
      childOf := none
      references := references
      tags := [("component", TagVal.s "grpc"), ("span.kind", TagVal.s "client")]
      logs := []
      startTime := 0
      finishCount := 0 }
  let span :=
    match ext.2 with
    | some e => spanLog span (LogEvent.error (ErrVal.codec e))
    | none => span
  (span, st + 1)

/-- Model of `_OpenTracingRendezvous.result` (lines 70-81): creates a span via
`_start_span`, replays the underlying memoized outcome inside a
`with span:` block; on success optionally logs the response payload, on
failure tags `error=true` and logs `sys.exc_info()[0]`; the span is
finished on both exits. -/
def _OpenTracingRendezvous.result (r : _OpenTracingRendezvous) (st : Nat) :
    Except PyExc Nat × SpanData × Nat :=
  let sp := r._start_span st
  match r.rendezvous.resultOutcome with
  | .ok response =>
    let span := if r.log_payloads then spanLog sp.1 (LogEvent.response response) else sp.1
    (.ok response, finishSpan span, sp.2)
  | .error e =>
    let span := spanSetTag sp.1 "error" (TagVal.b true)
    let span := spanLog span (LogEvent.error (exc_info_0 e))
    (.error e, finishSpan span, sp.2)

/-- Model of `cancel` (lines 58-59): pure pass-through to the underlying
rendezvous; no tracer interaction, so the span counter is unchanged. -/
def _OpenTracingRendezvous.cancel (r : _OpenTracingRendezvous) (st : Nat) :
    Bool × Nat :=
  (r.rendezvous.cancelRet, st)

/-- Model of `cancelled` (lines 61-62): pass-through. -/
def _OpenTracingRendezvous.cancelled (r : _OpenTracingRendezvous) (st : Nat) :
    Bool × Nat :=
  (r.rendezvous.cancelledRet, st)

/-- Model of `running` (lines 64-65): pass-through. -/
def _OpenTracingRendezvous.running (r : _OpenTracingRendezvous) (st : Nat) :
    Bool × Nat :=
  (r.rendezvous.runningRet, st)

/-- Model of `done` (lines 67-68): pass-through. -/
def _OpenTracingRendezvous.done (r : _OpenTracingRendezvous) (st : Nat) :
    Bool × Nat :=
  (r.rendezvous.doneRet, st)

/-- Model of `exception` (lines 83-84): pass-through. -/
def _OpenTracingRendezvous.exception (r : _OpenTracingRendezvous) (st : Nat) :
    Option PyExc × Nat :=
  (r.rendezvous.excRet, st)

/-- Model of `traceback` (lines 86-87): pass-through. -/
def _OpenTracingRendezvous.traceback (r : _OpenTracingRendezvous) (st : Nat) :
    Option String × Nat :=
  (r.rendezvous.tracebackRet, st)

/-- Model of `add_callback` (lines 89-90): pass-through. -/
def _OpenTracingRendezvous.add_callback (_r : _OpenTracingRendezvous) (st : Nat) :
    Unit × Nat :=
  ((), st)

/-- Model of `add_done_callback` (lines 92-93): pass-through. -/
def _OpenTracingRendezvous.add_done_callback (_r : _OpenTracingRendezvous) (st : Nat) :
    Unit × Nat :=
  ((), st)

/-- Model of `is_active` (lines 95-96): pass-through. -/
def _OpenTracingRendezvous.is_active (r : _OpenTracingRendezvous) (st : Nat) :
    Bool × Nat :=
  (r.rendezvous.isActiveRet, st)

/-- Model of `time_remaining` (lines 98-99): pass-through. -/
def _OpenTracingRendezvous.time_remaining (r : _OpenTracingRendezvous) (st : Nat) :
    Nat × Nat :=
  (r.rendezvous.timeRemainingRet, st)

/-- Model of `initial_metadata` (lines 101-102): pass-through. -/
def _OpenTracingRendezvous.initial_metadata (r : _OpenTracingRendezvous) (st : Nat) :
    Option Metadata × Nat :=
  (r.rendezvous.initialMeta, st)

/-- Model of `trailing_metadata` (lines 104-105): pass-through. -/
def _OpenTracingRendezvous.trailing_metadata (r : _OpenTracingRendezvous) (st : Nat) :
    Option Metadata × Nat :=
  (r.rendezvous.trailing, st)

/-- Model of `code` (lines 107-108): pass-through. -/
def _OpenTracingRendezvous.code (r : _OpenTracingRendezvous) (st : Nat) :
    Nat × Nat :=
  (r.rendezvous.codeRet, st)

/-- Model of `details` (lines 110-111): pass-through. -/
def _OpenTracingRendezvous.details (r : _OpenTracingRendezvous) (st : Nat) :
    String × Nat :=
  (r.rendezvous.detailsRet, st)

/-- The operations a caller can invoke on the wrapper. -/
inductive RendezvousOp where
  | cancelOp
  | cancelledOp
  | runningOp
  | doneOp
  | exceptionOp
  | tracebackOp
  | addCallbackOp
  | addDoneCallbackOp
  | isActiveOp
  | timeRemainingOp
  | initialMetadataOp
  | trailingMetadataOp
  | codeOp
  | detailsOp
  | resultOp
deriving DecidableEq

/-- Run one wrapper operation, returning the updated created-span count. -/
def _OpenTracingRendezvous.runOp (r : _OpenTracingRendezvous)
    (op : RendezvousOp) (st : Nat) : Nat :=
  match op with
  | .cancelOp => (r.cancel st).2
  | .cancelledOp => (r.cancelled st).2
  | .runningOp => (r.running st).2
  | .doneOp => (r.done st).2
  | .exceptionOp => (r.exception st).2
  | .tracebackOp => (r.traceback st).2
  | .addCallbackOp => (r.add_callback st).2
  | .addDoneCallbackOp => (r.add_done_callback st).2
  | .isActiveOp => (r.is_active st).2
  | .timeRemainingOp => (r.time_remaining st).2
  | .initialMetadataOp => (r.initial_metadata st).2
  | .trailingMetadataOp => (r.trailing_metadata st).2
  | .codeOp => (r.code st).2
  | .detailsOp => (r.details st).2
  | .resultOp => (r.result st).2.2

/-- Run a sequence of wrapper operations, threading the created-span count. -/
def _OpenTracingRendezvous.runOps (r : _OpenTracingRendezvous)
    (ops : List RendezvousOp) (st : Nat) : Nat :=
  ops.foldl (fun s op => r.runOp op s) st

/-- Model of `_inject_span_context` (lines 114-125): asks the tracer to serialize
the span context into a header carrier; on a codec failure logs the
caught error instance on the span and returns the original metadata; on
success returns the metadata (absent treated as the empty tuple)
with the header pairs appended. -/
def _inject_span_context (tracer : Tracer) (span : SpanData)
    (metadata : Option Metadata) : SpanData × Option Metadata :=
  match tracer.inject span.context with
  | .error e =>
    (spanLog span (LogEvent.error (ErrVal.codec e)), metadata)
  | .ok headers =>
    (span, some ((metadata.getD []) ++ headers))

/-- The possible shapes of a successful underlying invocation result on
the unary and non-server-streaming paths: an immediate response, a
`with_call`-shaped tuple whose first element is the response, or a
`grpc.Future` rendezvous. -/
inductive InvokeResult where
  | immediate (resp : Nat)
  | withCall (resp : Nat) (call : Nat)
  | future (f : UnderlyingRendezvous)

/-- What `_wrap_result` hands back: either the result unchanged or the
deferred-result wrapper around a future. -/
inductive WrapOutcome where
  | plain (r : InvokeResult)
  | rendezvous (w : _OpenTracingRendezvous)

/-- Model of `_wrap_result` (lines 128-142): a `grpc.Future` is wrapped in
`_OpenTracingRendezvous` (no span interaction at wrap time); otherwise,
when payload logging is enabled, the response (the first tuple element
in the `with_call` case) is logged and the result returned unchanged. -/
def _wrap_result (tracer : Tracer) (span : SpanData) (method : String)
    (log_payloads : Bool) (result : InvokeResult) : WrapOutcome × SpanData :=
  match result with
  | .future f =>
    (.rendezvous { rendezvous := f, method := method, tracer := tracer,
                   log_payloads := log_payloads }, span)
  | .withCall resp call =>
    if log_payloads then
      (.plain (.withCall resp call), spanLog span (LogEvent.response resp))
    else (.plain (.withCall resp call), span)
  | .immediate resp =>
    if log_payloads then
      (.plain (.immediate resp), spanLog span (LogEvent.response resp))
    else (.plain (.immediate resp), span)

/-- Modelled from the spec: `ClientRequestAttribute` is declared in
`grpc_opentracing/__init__.py`, which is not under `src/`; the spec
gives the closed set HEADERS, METHOD_TYPE, METHOD_NAME, DEADLINE,
with unrecognized selectors warned about and skipped, which the
`unrecognized` constructor stands for. -/
inductive ClientRequestAttribute where
  | HEADERS
  | METHOD_TYPE
  | METHOD_NAME
  | DEADLINE
  | unrecognized (tag : String)
deriving DecidableEq

/-- Modelled from the spec: `get_method_type` lives in `_utilities.py`,
which is not under `src/`; per the spec it derives one of
UNARY, CLIENT_STREAMING, SERVER_STREAMING, BIDI_STREAMING from the two
stream flags. -/
def get_method_type : Bool → Bool → String
  | false, false => "UNARY"
  | true, false => "CLIENT_STREAMING"
  | false, true => "SERVER_STREAMING"
  | true, true => "BIDI_STREAMING"

/-- Modelled from the spec: `get_deadline_millis` lives in
`_utilities.py`, which is not under `src/`; per the spec it renders the
milliseconds until the deadline, or an absent marker when there is no
deadline. -/
def get_deadline_millis : Option Nat → TagVal
  | some t => TagVal.n (t * 1000)
  | none => TagVal.s "None"

/-- Model of Python `str(metadata)` used for the `grpc.headers` tag. -/
def str_of_metadata : Option Metadata → String
  | none => "None"
  | some md => String.intercalate "," (md.map (fun p => p.1 ++ ":" ++ p.2))

/-- The per-call information carried by `client_info`. -/
structure ClientInfo where
  full_method : String
  timeout : Option Nat
  is_client_stream : Bool
  is_server_stream : Bool
deriving DecidableEq

/-- The interceptor `OpenTracingClientInterceptor` (lines 145-153): the
tracer, the active-span source (outer `none` models an absent source,
the inner option models `get_active_span()` yielding a span whose
`.context` is the carried value), the payload-logging flag and the
traced attributes. -/
structure OpenTracingClientInterceptor where
  tracer : Tracer
  active_span_source : Option (Option Nat)
  log_payloads : Bool
  traced_attributes : List ClientRequestAttribute

/-- Model of `OpenTracingClientInterceptor._start_span` (lines 155-177): resolves
the parent from the active-span source, populates the base tags plus one
tag per traced attribute (unrecognized selectors are only warned about),
and starts a span with `child_of` the resolved parent context. -/
def OpenTracingClientInterceptor._start_span (ic : OpenTracingClientInterceptor)
    (method : String) (metadata : Option Metadata)
    (is_client_stream is_server_stream : Bool) (timeout : Option Nat) : SpanData :=
  let active_span_context : Option Nat :=
    match ic.active_span_source with
    | none => none
    | some source => source
  let tags0 := [("component", TagVal.s "grpc"), ("span.kind", TagVal.s "client")]
  let tags := ic.traced_attributes.foldl (fun ts ta =>
    match ta with
    | .HEADERS => tagsSet ts "grpc.headers" (TagVal.s (str_of_metadata metadata))
    | .METHOD_TYPE =>
      tagsSet ts "grpc.method_type"
        (TagVal.s (get_method_type is_client_stream is_server_stream))
    | .METHOD_NAME => tagsSet ts "grpc.method_name" (TagVal.s method)
    | .DEADLINE => tagsSet ts "grpc.deadline_millis" (get_deadline_millis timeout)
    | .unrecognized _ => ts) tags0
  { operationName := method
    context := ic.tracer.newContext
    childOf := active_span_context
    references := []
    tags := tags
    logs := []
    startTime := 0
    finishCount := 0 }

/-- Model of `OpenTracingClientInterceptor.intercept_unary` (lines 179-193).
The underlying invoker is modelled by the outcome of this particular
invocation.  Inside the `with` block: inject context, optionally log the
request, invoke; a raise tags `error=true`, logs `sys.exc_info()[0]` and
re-raises (the span finishing as the `with` exits); a success goes
through `_wrap_result` and the span finishes on return. -/
def intercept_unary (ic : OpenTracingClientInterceptor) (request : Nat)
    (metadata : Option Metadata) (ci : ClientInfo)
    (invRes : Except PyExc InvokeResult) : Except PyExc WrapOutcome × SpanData :=
  let span := ic._start_span ci.full_method metadata false false ci.timeout
  let inj := _inject_span_context ic.tracer span metadata
  let span := inj.1
  let span := if ic.log_payloads then spanLog span (LogEvent.request request) else span
  match invRes with
  | .error e =>
    let span := spanSetTag span "error" (TagVal.b true)
    let span := spanLog span (LogEvent.error (exc_info_0 e))
    (.error e, finishSpan span)
  | .ok result =>
    let wr := _wrap_result ic.tracer span ci.full_method ic.log_payloads result
    (.ok wr.1, finishSpan wr.2)

/-- The request-side argument of a streaming call: a single request or a
request iterator. -/
inductive ReqArg where
  | single (r : Nat)
  | iter (rs : List Nat)
deriving DecidableEq

/-- What is handed to the underlying invoker on the streaming paths:
the raw argument, or the logging pass-through wrapped around a request
iterator. -/
inductive PassedArg where
  | raw (a : ReqArg)
  | loggedIter (rs : List Nat)
deriving DecidableEq

/-- Modelled from the spec: `log_or_wrap_request_or_iterator` lives in
`_utilities.py`, which is not under `src/`.  Per the spec, for a
client-streaming call it forwards the outgoing request sequence through
a logging pass-through emitting one log event per item as it is
consumed; otherwise it logs the single request on the span directly.
The two flag/shape mismatch cases cannot arise from the gRPC call paths
and are given pass-through behavior. -/
def log_or_wrap_request_or_iterator (span : SpanData) (is_client_stream : Bool)
    (arg : ReqArg) : SpanData × PassedArg :=
  match is_client_stream, arg with
  | true, .iter rs => (span, .loggedIter rs)
  | true, .single r => (span, .raw (.single r))
  | false, .single r => (spanLog span (LogEvent.request r), .raw (.single r))
  | false, .iter rs => (span, .raw (.iter rs))

/-- The log events the logging pass-through emits onto the span while
the underlying invocation consumes the request side. -/
def PassedArg.consumptionLogs : PassedArg → List LogEvent
  | .loggedIter rs => rs.map LogEvent.request
  | .raw _ => []

/-- The behavior of the underlying response sequence of a
server-streaming invocation: fully yielded without error, or raising
after a prefix of items. -/
inductive StreamOutcome where
  | items (rs : List Nat)
  | failAfter (rs : List Nat) (e : PyExc)

/-- Consumer-visible events of the wrapping generator: an item yielded
to the consumer, or the span being finished (the `with` block exiting). -/
inductive Ev where
  | yielded (r : Nat)
  | finished
deriving DecidableEq

/-- The response loop of `_intercept_server_stream` (lines 209-212) on a
sequence exhausted without error: each item is response-logged when
payload logging is enabled, then yielded; exhaustion exits the `with`
block, finishing the span. -/
def streamSuccessRun (lp : Bool) (span : SpanData) :
    List Nat → List Ev × Except PyExc Unit × SpanData
  | [] => ([Ev.finished], Except.ok (), finishSpan span)
  | r :: rs =>
    let span2 := if lp then spanLog span (LogEvent.response r) else span
    let rest := streamSuccessRun lp span2 rs
    (Ev.yielded r :: rest.1, rest.2.1, rest.2.2)

/-- The response loop on a sequence that raises after a prefix of items
(lines 209-217): the prefix is logged and yielded as on the success
path; the raise tags `error=true`, logs `sys.exc_info()[0]`, re-raises,
and the span is finished as the `with` block exits. -/
def streamFailRun (lp : Bool) (e : PyExc) (span : SpanData) :
    List Nat → List Ev × Except PyExc Unit × SpanData
  | [] =>
    let span2 := spanSetTag span "error" (TagVal.b true)
    let span3 := spanLog span2 (LogEvent.error (exc_info_0 e))
    ([Ev.finished], Except.error e, finishSpan span3)
  | r :: rs =>
    let span2 := if lp then spanLog span (LogEvent.response r) else span
    let rest := streamFailRun lp e span2 rs
    (Ev.yielded r :: rest.1, rest.2.1, rest.2.2)

/-- Dispatch the response loop on the stream outcome. -/
def streamLoop (lp : Bool) (span : SpanData) :
    StreamOutcome → List Ev × Except PyExc Unit × SpanData
  | .items rs => streamSuccessRun lp span rs
  | .failAfter rs e => streamFailRun lp e span rs

/-- The steps of `_intercept_server_stream` before the invocation
(lines 200-206): build the span, inject context into the metadata, wrap
or log the request side when payload logging is enabled, and account for
the pass-through's per-item request logs emitted while the invocation
consumes the request sequence. -/
def serverStreamSetup (ic : OpenTracingClientInterceptor) (arg : ReqArg)
    (md : Option Metadata) (ci : ClientInfo) : SpanData × PassedArg :=
  let span := ic._start_span ci.full_method md ci.is_client_stream true ci.timeout
  let inj := _inject_span_context ic.tracer span md
  let span := inj.1
  let wrapped :=
    if ic.log_payloads then log_or_wrap_request_or_iterator span ci.is_client_stream arg
    else (span, .raw arg)
  let span := addLogs wrapped.1 wrapped.2.consumptionLogs
  (span, wrapped.2)

/-- The observable outcome of a fully consumed server-streaming call:
the argument handed to the invoker, the consumer-visible event trace,
the final outcome, and the final span state. -/
structure ServerStreamRun where
  argPassed : PassedArg
  evs : List Ev
  out : Except PyExc Unit
  span : SpanData

/-- Model of `OpenTracingClientInterceptor._intercept_server_stream`
(lines 198-217), as observed by a consumer that drives the generator to
completion.  The underlying invoker is modelled by the outcome of this
particular invocation: a raise at invocation time takes the same except
branch as a raise inside the loop. -/
def _intercept_server_stream (ic : OpenTracingClientInterceptor) (arg : ReqArg)
    (md : Option Metadata) (ci : ClientInfo)
    (invRes : Except PyExc StreamOutcome) : ServerStreamRun :=
  let setup := serverStreamSetup ic arg md ci
  match invRes with
  | .error e =>
    let span := spanSetTag setup.1 "error" (TagVal.b true)
    let span := spanLog span (LogEvent.error (exc_info_0 e))
    { argPassed := setup.2, evs := [Ev.finished], out := .error e,
      span := finishSpan span }
  | .ok so =>
    let run := streamLoop ic.log_payloads setup.1 so
    { argPassed := setup.2, evs := run.1, out := run.2.1, span := run.2.2 }

/-- A streaming invoker, modelled by the outcome of this particular
invocation in each of the two shapes the two branches of
`intercept_stream` expect. -/
structure InvokerModel where
  streamRes : Except PyExc StreamOutcome
  callRes : Except PyExc InvokeResult

/-- The result of `intercept_stream`: the server-streaming branch yields
a generator run, the other branch a direct result. -/
inductive StreamCallResult where
  | streamed (r : ServerStreamRun)
  | direct (argPassed : PassedArg) (out : Except PyExc WrapOutcome) (span : SpanData)

/-- The argument that was handed to the underlying invoker. -/
def StreamCallResult.argOf : StreamCallResult → PassedArg
  | .streamed r => r.argPassed
  | .direct a _ _ => a

/-- The final span state of the call. -/
def StreamCallResult.spanOf : StreamCallResult → SpanData
  | .streamed r => r.span
  | .direct _ _ sp => sp

/-- The direct outcome, when the call took the non-server-streaming
branch. -/
def StreamCallResult.directOut : StreamCallResult → Option (Except PyExc WrapOutcome)
  | .streamed _ => none
  | .direct _ out _ => some out

/-- Model of `OpenTracingClientInterceptor.intercept_stream` (lines 219-236).
A server-streaming call is delegated to `_intercept_server_stream`.
Otherwise: build the span, inject context, and invoke with the original
request-or-iterator — this branch never applies the logging
pass-through, and it hands `False` to `_wrap_result` in place of the
payload-logging flag.  A raise tags `error=true`, logs
`sys.exc_info()[0]` and re-raises; the span finishes on both exits. -/
def intercept_stream (ic : OpenTracingClientInterceptor) (arg : ReqArg)
    (md : Option Metadata) (ci : ClientInfo) (inv : InvokerModel) :
    StreamCallResult :=
  if ci.is_server_stream then
    .streamed (_intercept_server_stream ic arg md ci inv.streamRes)
  else
    let span := ic._start_span ci.full_method md ci.is_client_stream false ci.timeout
    let inj := _inject_span_context ic.tracer span md
    let span := inj.1
    let arg2 := PassedArg.raw arg
    match inv.callRes with
    | .error e =>
      let span := spanSetTag span "error" (TagVal.b true)
      let span := spanLog span (LogEvent.error (exc_info_0 e))
      .direct arg2 (.error e) (finishSpan span)
    | .ok result =>
      let wr := _wrap_result ic.tracer span ci.full_method false result
      .direct arg2 (.ok wr.1) (finishSpan wr.2)

/-! Concrete sample values used by counterexamples and witnesses. -/

/-- Sample tracing headers produced by a succeeding `tracer.inject`. -/
def exHeaders : Metadata := [("ot-span-id", "7")]

/-- A tracer whose codec succeeds in both directions. -/
def exTracerOk : Tracer :=
  { inject := fun _ => .ok exHeaders
    extract := fun _ => .ok 3
    newContext := 11 }

/-- A tracer whose codec fails in both directions. -/
def exTracerErr : Tracer :=
  { inject := fun _ => .error .invalidCarrier
    extract := fun _ => .error .spanContextCorrupted
    newContext := 11 }

/-- Sample outgoing metadata. -/
def exMd : Metadata := [("k", "v")]

/-- A sample already-started span. -/
def exSpan : SpanData :=
  { operationName := "/pkg.Service/Get"
    context := 11
    childOf := none
    references := []
    tags := [("component", TagVal.s "grpc"), ("span.kind", TagVal.s "client")]
    logs := []
    startTime := 0
    finishCount := 0 }

/-- A resolved underlying rendezvous whose memoized outcome is success. -/
def exUnderlying : UnderlyingRendezvous :=
  { resultOutcome := .ok 5
    trailing := some [("tk", "tv")]
    cancelRet := true
    cancelledRet := false
    runningRet := false
    doneRet := true
    excRet := none
    tracebackRet := none
    isActiveRet := false
    timeRemainingRet := 0
    initialMeta := none
    codeRet := 0
    detailsRet := "" }

/-- The deferred-result wrapper around `exUnderlying`. -/
def exWrapper : _OpenTracingRendezvous :=
  { rendezvous := exUnderlying
    method := "/pkg.Service/Get"
    tracer := exTracerOk
    log_payloads := true }

/-- A sample exception instance raised by an underlying invocation. -/
def exFailure : PyExc := { cls := "ValueError", payload := 7 }

/-- Client info of a unary call. -/
def exClientInfo : ClientInfo :=
  { full_method := "/pkg.Service/Get"
    timeout := none
    is_client_stream := false
    is_server_stream := false }

/-- Client info of a client-streaming, non-server-streaming call. -/
def exStreamClientInfo : ClientInfo :=
  { full_method := "/pkg.Service/Put"
    timeout := none
    is_client_stream := true
    is_server_stream := false }

/-- An interceptor with payload logging disabled. -/
def exInterceptor : OpenTracingClientInterceptor :=
  { tracer := exTracerOk
    active_span_source := none
    log_payloads := false
    traced_attributes := [] }

/-- An interceptor with payload logging enabled. -/
def exInterceptorLP : OpenTracingClientInterceptor :=
  { tracer := exTracerOk
    active_span_source := none
    log_payloads := true
    traced_attributes := [] }

/-- A streaming invoker succeeding with an immediate response. -/
def exInvoker : InvokerModel :=
  { streamRes := .ok (.items [])
    callRes := .ok (.immediate 3) }

/-! Helper lemmas shared by the claim theorems. -/

/-- Model of `_start_span` on the wrapper creates exactly one span per call. -/
theorem rendezvous_startSpan_count (r : _OpenTracingRendezvous) (st : Nat) :
    (r._start_span st).2 = st + 1 := rfl

/-- Response-event counting distributes over appending. -/
theorem countResp_append (l1 l2 : List LogEvent) :
    countResp (l1 ++ l2) = countResp l1 + countResp l2 := by
  simp [countResp, List.filter_append]

/-- Request-event counting distributes over appending. -/
theorem countReq_append (l1 l2 : List LogEvent) :
    countReq (l1 ++ l2) = countReq l1 + countReq l2 := by
  simp [countReq, List.filter_append]

/-- A list of request events contains no response events. -/
theorem countResp_requestLogs (rs : List Nat) :
    countResp (rs.map LogEvent.request) = 0 := by
  induction rs with
  | nil => rfl
  | cons r rs ih => simp [countResp, isRespEvent, List.filter_cons] at ih ⊢

/-- Context injection never adds response or request events to the span
and never finishes it. -/
theorem inject_span_logs (t : Tracer) (s : SpanData) (md : Option Metadata) :
    countResp (_inject_span_context t s md).1.logs = countResp s.logs ∧
    countReq (_inject_span_context t s md).1.logs = countReq s.logs ∧
    (_inject_span_context t s md).1.finishCount = s.finishCount := by
  unfold _inject_span_context
  cases h : t.inject s.context <;>
    simp [spanLog, countResp, countReq, List.filter_append, isRespEvent, isReqEvent,
      List.filter_cons]

/-- The request-side wrapper never adds response events and never
finishes the span. -/
theorem logOrWrap_span (s : SpanData) (b : Bool) (a : ReqArg) :
    countResp (log_or_wrap_request_or_iterator s b a).1.logs = countResp s.logs ∧
    (log_or_wrap_request_or_iterator s b a).1.finishCount = s.finishCount := by
  cases b <;> cases a <;>
    simp [log_or_wrap_request_or_iterator, spanLog, countResp, List.filter_append,
      isRespEvent, List.filter_cons]

/-- The pass-through consumption logs contain no response events. -/
theorem consumptionLogs_countResp (a : PassedArg) :
    countResp a.consumptionLogs = 0 := by
  cases a with
  | raw _ => rfl
  | loggedIter rs => exact countResp_requestLogs rs

/-! Claim theorems. -/

/-- Claim C1, counterexample: on a wrapper around an already-resolved
rendezvous, invoking `result()` twice creates two completion spans, not
one — span creation is not memoized across calls. -/
theorem claim_C1_counterexample :
    (exWrapper.result ((exWrapper.result 0).2.2)).2.2 = 2 ∧ (2 : Nat) ≠ 1 :=
  ⟨rfl, by decide⟩

/-- Claim C1, amended: every invocation of `result()` on the wrapper
creates exactly one new completion span (so two invocations after
resolution create two spans), and every invocation replays the
underlying handle's memoized outcome unchanged. -/
theorem claim_C1_amended (r : _OpenTracingRendezvous) (st : Nat) :
    (r.result st).1 = r.rendezvous.resultOutcome ∧
    (r.result st).2.2 = st + 1 := by
  unfold _OpenTracingRendezvous.result
  cases h : r.rendezvous.resultOutcome <;>
    simp [h, rendezvous_startSpan_count]

/-- Claim C5: running any sequence of wrapper operations that never
includes `result()` (cancellation, status polls, metadata reads,
callback registration) creates zero completion spans, and `cancel` is
forwarded transparently: it returns exactly what the underlying
rendezvous's `cancel` returns. -/
theorem claim_C5 (r : _OpenTracingRendezvous) (ops : List RendezvousOp) (st : Nat)
    (h : RendezvousOp.resultOp ∉ ops) :
    r.runOps ops st = st ∧ r.cancel st = (r.rendezvous.cancelRet, st) := by
  refine ⟨?_, rfl⟩
  induction ops generalizing st with
  | nil => rfl
  | cons op ops ih =>
    have hop : op ≠ RendezvousOp.resultOp := by
      rintro rfl
      exact h (List.mem_cons_self _ _)
    have hops : RendezvousOp.resultOp ∉ ops := fun hm => h (List.mem_cons_of_mem _ hm)
    have hstep : r.runOp op st = st := by
      cases op <;> first | rfl | exact absurd rfl hop
    calc r.runOps (op :: ops) st = r.runOps ops (r.runOp op st) := rfl
      _ = r.runOps ops st := by rw [hstep]
      _ = st := ih st hops

/-- Claim C5, witness: a concrete wrapper on which only `cancel` and
`cancelled` are invoked creates zero completion spans, and `cancel`
returns the underlying rendezvous's answer. -/
theorem claim_C5_witness :
    RendezvousOp.resultOp ∉ [RendezvousOp.cancelOp, RendezvousOp.cancelledOp] ∧
    exWrapper.runOps [RendezvousOp.cancelOp, RendezvousOp.cancelledOp] 0 = 0 ∧
    exWrapper.cancel 0 = (true, 0) := by
  refine ⟨by decide, ?_, ?_⟩
  · exact (claim_C5 exWrapper _ 0 (by decide)).1
  · exact (claim_C5 exWrapper [] 0 (by decide)).2

/-- Claim C9: when the outgoing metadata is absent and the tracer's
codec succeeds, injection returns a tuple holding only the appended
tracing headers (absent metadata is treated as the empty sequence). -/
theorem claim_C9 (tracer : Tracer) (span : SpanData) (hs : Metadata)
    (h : tracer.inject span.context = Except.ok hs) :
    _inject_span_context tracer span none = (span, some hs) := by
  unfold _inject_span_context
  rw [h]
  simp

/-- Claim C9, witness: injection with absent metadata on a succeeding
codec returns exactly the tracing headers. -/
theorem claim_C9_witness :
    exTracerOk.inject exSpan.context = Except.ok exHeaders ∧
    _inject_span_context exTracerOk exSpan none = (exSpan, some exHeaders) :=
  ⟨rfl, claim_C9 exTracerOk exSpan exHeaders rfl⟩

/-- Claim C10: when payload logging is enabled and the invocation result
has the `with_call` tuple shape, `_wrap_result` logs only the first
tuple element as the response event and returns the tuple itself
unchanged. -/
theorem claim_C10 (tracer : Tracer) (span : SpanData) (method : String)
    (resp call : Nat) :
    _wrap_result tracer span method true (InvokeResult.withCall resp call) =
      (WrapOutcome.plain (InvokeResult.withCall resp call),
        spanLog span (LogEvent.response resp)) := rfl

/-- Claim C3: on a codec failure, `_inject_span_context` logs the caught
error as a structured event on the span and returns the original
metadata unchanged; on codec success it leaves the span untouched and
returns a new sequence equal to the original with the tracing headers
appended.  The embedding is purely functional, so the input metadata is
never mutated in place. -/
theorem claim_C3 (tracer : Tracer) (span : SpanData) (md : Option Metadata) :
    (∀ e, tracer.inject span.context = Except.error e →
      _inject_span_context tracer span md =
        (spanLog span (LogEvent.error (ErrVal.codec e)), md)) ∧
    (∀ hs, tracer.inject span.context = Except.ok hs →
      (_inject_span_context tracer span md).1 = span ∧
      ∀ m, md = some m →
        (_inject_span_context tracer span md).2 = some (m ++ hs)) := by
  constructor
  · intro e he
    unfold _inject_span_context
    rw [he]
  · intro hs hok
    unfold _inject_span_context
    rw [hok]
    exact ⟨rfl, by rintro m rfl; rfl⟩

/-- Claim C3, witness: with a failing codec the original metadata comes
back and the span carries the error event; with a succeeding codec the
headers are appended to the original metadata. -/
theorem claim_C3_witness :
    _inject_span_context exTracerErr exSpan (some exMd) =
      (spanLog exSpan (LogEvent.error (ErrVal.codec CodecError.invalidCarrier)),
        some exMd) ∧
    (_inject_span_context exTracerOk exSpan (some exMd)).2 =
      some (exMd ++ exHeaders) :=
  ⟨(claim_C3 exTracerErr exSpan (some exMd)).1 CodecError.invalidCarrier rfl,
    ((claim_C3 exTracerOk exSpan (some exMd)).2 exHeaders rfl).2 exMd rfl⟩

/-- Claim C8: both codec directions are total at their boundary.  For
every tracer, span, and metadata, injection returns a usable metadata
value — the original, or the original (absent read as empty) with the
headers appended; and the extract direction inside the wrapper's
`_start_span` always yields a span whose causal reference is either
absent (root span) or a single recovered context, never raising past
the boundary (the embedded functions are total). -/
theorem claim_C8 (tracer : Tracer) (span : SpanData) (md : Option Metadata)
    (r : _OpenTracingRendezvous) (st : Nat) :
    ((_inject_span_context tracer span md).2 = md ∨
      ∃ hs, tracer.inject span.context = Except.ok hs ∧
        (_inject_span_context tracer span md).2 = some (md.getD [] ++ hs)) ∧
    ((r._start_span st).1.references = [] ∨
      ∃ c, r.rendezvous.trailing.getD [] ≠ [] ∧
        (r._start_span st).1.references = [c]) := by
  constructor
  · unfold _inject_span_context
    cases h : tracer.inject span.context with
    | error e => exact Or.inl rfl
    | ok hs => exact Or.inr ⟨hs, rfl, rfl⟩
  · unfold _OpenTracingRendezvous._start_span
    cases hm : r.rendezvous.trailing with
    | none => exact Or.inl rfl
    | some m =>
      by_cases he : m.isEmpty
      · simp [he, spanLog]
      · cases hx : r.tracer.extract m with
        | ok c =>
          refine Or.inr ⟨c, ?_, ?_⟩
          · simpa using he
          · simp [he, hx, spanLog]
        | error e => simp [he, hx, spanLog]

/-- Claim C7: a unary call to `/pkg.Service/Get` when the active-span
source yields no active span and the traced attributes are exactly
METHOD_NAME produces a root span (no `child_of` parent) whose tags are
exactly `component=grpc`, `span.kind=client`,
`grpc.method_name=/pkg.Service/Get`; and in general the span started by
the interceptor is a child of the active span's context when the source
yields one and a root span otherwise. -/
theorem claim_C7 (tracer : Tracer) (lp : Bool) (md : Option Metadata)
    (ic : OpenTracingClientInterceptor) (method : String) (md2 : Option Metadata)
    (ics iss : Bool) (t : Option Nat) :
    (OpenTracingClientInterceptor._start_span
        { tracer := tracer, active_span_source := some none, log_payloads := lp,
          traced_attributes := [ClientRequestAttribute.METHOD_NAME] }
        "/pkg.Service/Get" md false false none).childOf = none ∧
    (OpenTracingClientInterceptor._start_span
        { tracer := tracer, active_span_source := some none, log_payloads := lp,
          traced_attributes := [ClientRequestAttribute.METHOD_NAME] }
        "/pkg.Service/Get" md false false none).tags =
      [("component", TagVal.s "grpc"), ("span.kind", TagVal.s "client"),
        ("grpc.method_name", TagVal.s "/pkg.Service/Get")] ∧
    (ic._start_span method md2 ics iss t).childOf =
      (match ic.active_span_source with
        | none => none
        | some source => source) := by
  refine ⟨rfl, ?_, rfl⟩
  simp [OpenTracingClientInterceptor._start_span, tagsSet]

/-- Claim C2, evaluation at the failing input: a synchronous unary call
whose invocation raises the `ValueError` instance `exFailure` re-raises
that exact failure, tags the span `error=true`, finishes the span once,
and records exactly one structured error event — but that event carries
the exception class (`sys.exc_info()[0]`), not the failure object
itself. -/
theorem claim_C2_code_eval :
    (intercept_unary exInterceptor 1 (some exMd) exClientInfo
        (Except.error exFailure)).1 = Except.error exFailure ∧
    tagsGet (intercept_unary exInterceptor 1 (some exMd) exClientInfo
        (Except.error exFailure)).2.tags "error" = some (TagVal.b true) ∧
    (intercept_unary exInterceptor 1 (some exMd) exClientInfo
        (Except.error exFailure)).2.finishCount = 1 ∧
    (intercept_unary exInterceptor 1 (some exMd) exClientInfo
        (Except.error exFailure)).2.logs =
      [LogEvent.error (ErrVal.excClass "ValueError")] ∧
    LogEvent.error (ErrVal.excClass "ValueError") ≠
      LogEvent.error (ErrVal.excInstance exFailure) := by
  refine ⟨rfl, by decide, rfl, by decide, by decide⟩

/-! Further helper lemmas for the streaming-path claims. -/

/-- The span started by the interceptor carries no log events yet. -/
theorem interceptor_startSpan_logs (ic : OpenTracingClientInterceptor)
    (m : String) (md : Option Metadata) (a b : Bool) (t : Option Nat) :
    (ic._start_span m md a b t).logs = [] := rfl

/-- The span started by the interceptor is not finished yet. -/
theorem interceptor_startSpan_finish (ic : OpenTracingClientInterceptor)
    (m : String) (md : Option Metadata) (a b : Bool) (t : Option Nat) :
    (ic._start_span m md a b t).finishCount = 0 := rfl

/-- Injection preserves the response-event count of the span. -/
theorem inject_countResp (t : Tracer) (s : SpanData) (md : Option Metadata) :
    countResp (_inject_span_context t s md).1.logs = countResp s.logs :=
  (inject_span_logs t s md).1

/-- Injection preserves the request-event count of the span. -/
theorem inject_countReq (t : Tracer) (s : SpanData) (md : Option Metadata) :
    countReq (_inject_span_context t s md).1.logs = countReq s.logs :=
  (inject_span_logs t s md).2.1

/-- Injection never finishes the span. -/
theorem inject_finishCount (t : Tracer) (s : SpanData) (md : Option Metadata) :
    (_inject_span_context t s md).1.finishCount = s.finishCount :=
  (inject_span_logs t s md).2.2

/-- The request-side wrapper preserves the response-event count. -/
theorem logOrWrap_countResp (s : SpanData) (b : Bool) (a : ReqArg) :
    countResp (log_or_wrap_request_or_iterator s b a).1.logs = countResp s.logs :=
  (logOrWrap_span s b a).1

/-- The request-side wrapper never finishes the span. -/
theorem logOrWrap_finishCount (s : SpanData) (b : Bool) (a : ReqArg) :
    (log_or_wrap_request_or_iterator s b a).1.finishCount = s.finishCount :=
  (logOrWrap_span s b a).2

/-- Appending events adds their response count. -/
theorem countResp_addLogs (s : SpanData) (es : List LogEvent) :
    countResp (addLogs s es).logs = countResp s.logs + countResp es := by
  simp [addLogs, countResp, List.filter_append]

/-- Model of `addLogs` never finishes the span. -/
theorem addLogs_finishCount (s : SpanData) (es : List LogEvent) :
    (addLogs s es).finishCount = s.finishCount := rfl

/-- Logging a response event increments the response count by one. -/
theorem countResp_spanLog_resp (s : SpanData) (r : Nat) :
    countResp (spanLog s (LogEvent.response r)).logs = countResp s.logs + 1 := by
  simp [spanLog, countResp, List.filter_append, isRespEvent, List.filter_cons]

/-- Logging any event never finishes the span. -/
theorem spanLog_finishCount (s : SpanData) (e : LogEvent) :
    (spanLog s e).finishCount = s.finishCount := rfl

/-- Logging an error event changes neither the request- nor the
response-event count. -/
theorem count_spanLog_err (s : SpanData) (v : ErrVal) :
    countReq (spanLog s (LogEvent.error v)).logs = countReq s.logs ∧
    countResp (spanLog s (LogEvent.error v)).logs = countResp s.logs := by
  simp [spanLog, countReq, countResp, List.filter_append, isReqEvent, isRespEvent,
    List.filter_cons]

/-- The empty log list has no response events. -/
theorem countResp_nil : countResp [] = 0 := rfl

/-- The empty log list has no request events. -/
theorem countReq_nil : countReq [] = 0 := rfl

/-- Finishing does not touch the logs. -/
theorem finishSpan_logs (s : SpanData) : (finishSpan s).logs = s.logs := rfl

/-- Finishing increments the finish count by one. -/
theorem finishSpan_count (s : SpanData) :
    (finishSpan s).finishCount = s.finishCount + 1 := rfl

/-- Model of `_wrap_result` with payload logging disabled returns the span
untouched. -/
theorem wrap_result_false_span (t : Tracer) (s : SpanData) (m : String)
    (r : InvokeResult) : (_wrap_result t s m false r).2 = s := by
  cases r <;> rfl

/-- The span produced by the pre-invocation steps of the
server-streaming path has no response events and is unfinished. -/
theorem serverStreamSetup_spec (ic : OpenTracingClientInterceptor) (arg : ReqArg)
    (md : Option Metadata) (ci : ClientInfo) :
    countResp (serverStreamSetup ic arg md ci).1.logs = 0 ∧
    (serverStreamSetup ic arg md ci).1.finishCount = 0 := by
  unfold serverStreamSetup
  cases hlp : ic.log_payloads <;>
    simp [hlp, countResp_addLogs, consumptionLogs_countResp, logOrWrap_countResp,
      logOrWrap_finishCount, inject_countResp, inject_finishCount,
      interceptor_startSpan_logs, interceptor_startSpan_finish, addLogs_finishCount,
      countResp_nil]

/-- Full consumption of the success loop: every item is yielded in
order, iteration completes cleanly, the span is finished exactly once
more, at the very end, and the response-event count grows by the number
of items exactly when payload logging is enabled. -/
theorem streamSuccessRun_spec (lp : Bool) (span : SpanData) (rs : List Nat) :
    (streamSuccessRun lp span rs).1 = rs.map Ev.yielded ++ [Ev.finished] ∧
    (streamSuccessRun lp span rs).2.1 = Except.ok () ∧
    (streamSuccessRun lp span rs).2.2.finishCount = span.finishCount + 1 ∧
    countResp (streamSuccessRun lp span rs).2.2.logs =
      countResp span.logs + (if lp then rs.length else 0) := by
  induction rs generalizing span with
  | nil => simp [streamSuccessRun, finishSpan]
  | cons r rs ih =>
    obtain ⟨h1, h2, h3, h4⟩ := ih (if lp then spanLog span (LogEvent.response r) else span)
    cases lp with
    | false =>
      refine ⟨?_, ?_, ?_, ?_⟩ <;>
        simp_all [streamSuccessRun]
    | true =>
      refine ⟨?_, ?_, ?_, ?_⟩ <;>
        simp_all [streamSuccessRun, countResp_spanLog_resp, spanLog_finishCount]
      all_goals omega

/-- Model of `set_tag` does not touch the logs. -/
theorem spanSetTag_logs (s : SpanData) (k : String) (v : TagVal) :
    (spanSetTag s k v).logs = s.logs := rfl

/-- Model of `set_tag` never finishes the span. -/
theorem spanSetTag_finishCount (s : SpanData) (k : String) (v : TagVal) :
    (spanSetTag s k v).finishCount = s.finishCount := rfl

/-- Claim C4: for a server-streaming call whose response sequence yields
its items and is exhausted without error, the consumer sees every item
yielded in order and the span finished exactly once, after the last
item; the stream span's finish count is one, and the number of
response-log events on it equals the number of items exactly when
payload logging is enabled. -/
theorem claim_C4 (ic : OpenTracingClientInterceptor) (arg : ReqArg)
    (md : Option Metadata) (ci : ClientInfo) (rs : List Nat) :
    (_intercept_server_stream ic arg md ci
        (Except.ok (StreamOutcome.items rs))).evs =
      rs.map Ev.yielded ++ [Ev.finished] ∧
    (_intercept_server_stream ic arg md ci
        (Except.ok (StreamOutcome.items rs))).out = Except.ok () ∧
    (_intercept_server_stream ic arg md ci
        (Except.ok (StreamOutcome.items rs))).span.finishCount = 1 ∧
    countResp (_intercept_server_stream ic arg md ci
        (Except.ok (StreamOutcome.items rs))).span.logs =
      (if ic.log_payloads then rs.length else 0) := by
  have hsetup := serverStreamSetup_spec ic arg md ci
  have hrun := streamSuccessRun_spec ic.log_payloads
    (serverStreamSetup ic arg md ci).1 rs
  refine ⟨hrun.1, hrun.2.1, ?_, ?_⟩
  · show (streamSuccessRun ic.log_payloads
        (serverStreamSetup ic arg md ci).1 rs).2.2.finishCount = 1
    rw [hrun.2.2.1, hsetup.2]
  · show countResp (streamSuccessRun ic.log_payloads
        (serverStreamSetup ic arg md ci).1 rs).2.2.logs =
      (if ic.log_payloads then rs.length else 0)
    rw [hrun.2.2.2, hsetup.1]
    exact Nat.zero_add _

/-- Claim C6, counterexample: a client-streaming, non-server-streaming
call with payload logging enabled and a one-item request sequence hands
the invoker the ORIGINAL unwrapped sequence, emits zero request-log
events (the claim demands one per item), and does not log the single
response either — the branch passes a hard-coded `False` for the
payload-logging flag. -/
theorem claim_C6_counterexample :
    (intercept_stream exInterceptorLP (ReqArg.iter [5]) none exStreamClientInfo
        exInvoker).argOf = PassedArg.raw (ReqArg.iter [5]) ∧
    countReq (intercept_stream exInterceptorLP (ReqArg.iter [5]) none
        exStreamClientInfo exInvoker).spanOf.logs = 0 ∧
    countReq (intercept_stream exInterceptorLP (ReqArg.iter [5]) none
        exStreamClientInfo exInvoker).spanOf.logs ≠ [5].length ∧
    countResp (intercept_stream exInterceptorLP (ReqArg.iter [5]) none
        exStreamClientInfo exInvoker).spanOf.logs = 0 ∧
    (intercept_stream exInterceptorLP (ReqArg.iter [5]) none exStreamClientInfo
        exInvoker).directOut =
      some (Except.ok (WrapOutcome.plain (InvokeResult.immediate 3))) := by
  refine ⟨rfl, rfl, by decide, rfl, rfl⟩

/-- Claim C6, amended: for every client-streaming, non-server-streaming
call, the request sequence is forwarded to the invoker unchanged — no
logging pass-through is applied even when payload logging is enabled —
the span carries no request- and no response-log events and is finished
exactly once; an invocation failure is re-raised unchanged, and a
deferred result is wrapped with payload logging disabled. -/
theorem claim_C6_amended (ic : OpenTracingClientInterceptor) (arg : ReqArg)
    (md : Option Metadata) (ci : ClientInfo) (inv : InvokerModel)
    (h : ci.is_server_stream = false) :
    (intercept_stream ic arg md ci inv).argOf = PassedArg.raw arg ∧
    countReq (intercept_stream ic arg md ci inv).spanOf.logs = 0 ∧
    countResp (intercept_stream ic arg md ci inv).spanOf.logs = 0 ∧
    (intercept_stream ic arg md ci inv).spanOf.finishCount = 1 ∧
    (∀ e, inv.callRes = Except.error e →
      (intercept_stream ic arg md ci inv).directOut = some (Except.error e)) ∧
    (∀ f, inv.callRes = Except.ok (InvokeResult.future f) →
      (intercept_stream ic arg md ci inv).directOut =
        some (Except.ok (WrapOutcome.rendezvous
          { rendezvous := f, method := ci.full_method, tracer := ic.tracer,
            log_payloads := false }))) := by
  unfold intercept_stream
  rw [h]
  simp only [Bool.false_eq_true, if_false]
  cases hc : inv.callRes with
  | error e =>
    refine ⟨rfl, ?_, ?_, ?_, ?_, ?_⟩
    · simp [StreamCallResult.spanOf, finishSpan_logs, (count_spanLog_err _ _).1,
        spanSetTag_logs, inject_countReq, interceptor_startSpan_logs, countReq_nil]
    · simp [StreamCallResult.spanOf, finishSpan_logs, (count_spanLog_err _ _).2,
        spanSetTag_logs, inject_countResp, interceptor_startSpan_logs, countResp_nil]
    · simp [StreamCallResult.spanOf, finishSpan_count, spanLog_finishCount,
        spanSetTag_finishCount, inject_finishCount, interceptor_startSpan_finish]
    · intro e2 he2
      injection he2 with h2
      subst h2
      rfl
    · intro f hf
      exact absurd hf (by simp)
  | ok r =>
    refine ⟨rfl, ?_, ?_, ?_, ?_, ?_⟩
    · simp [StreamCallResult.spanOf, finishSpan_logs, wrap_result_false_span,
        inject_countReq, interceptor_startSpan_logs, countReq_nil]
    · simp [StreamCallResult.spanOf, finishSpan_logs, wrap_result_false_span,
        inject_countResp, interceptor_startSpan_logs, countResp_nil]
    · simp [StreamCallResult.spanOf, finishSpan_count, wrap_result_false_span,
        inject_finishCount, interceptor_startSpan_finish]
    · intro e he
      exact absurd he (by simp)
    · intro f hf
      injection hf with h2
      subst h2
      rfl

/-- Claim C6, witness for the amended claim: the concrete
client-streaming call from the counterexample forwards the raw request
sequence and finishes its span exactly once. -/
theorem claim_C6_witness :
    exStreamClientInfo.is_server_stream = false ∧
    (intercept_stream exInterceptorLP (ReqArg.iter [5]) none exStreamClientInfo
        exInvoker).argOf = PassedArg.raw (ReqArg.iter [5]) ∧
    (intercept_stream exInterceptorLP (ReqArg.iter [5]) none exStreamClientInfo
        exInvoker).spanOf.finishCount = 1 := by
  have ha := claim_C6_amended exInterceptorLP (ReqArg.iter [5]) none
    exStreamClientInfo exInvoker rfl
  exact ⟨rfl, ha.1, ha.2.2.2.1⟩
